import Mathlib

set_option maxRecDepth 10000

/-!
A shallow embedding of the CerebroEcho / EdgeEcho backend (`src/main.py`).

The backend is a FastAPI app with two stateful endpoints:

* `POST /process_audio` (`process_audio` in `main.py`): validates the request,
  enforces a per-key quota held in the process-local `usage_tracker` dict,
  transcribes the uploaded audio via a hosted speech-to-text call, asks a
  hosted chat-completion service for an answer and returns a JSON envelope.
* `POST /save_email` (`save_email` in `main.py`): migrates a counter entry from
  the anonymous key to an email-qualified key.

Modelling choices:

* `usage_tracker` (a Python `dict[str, int]`) is an association list with the
  Python-dict operations `dictGet` / `dictSet` / `dictDel` / `dictContains`.
  Python dicts never hold a key twice; where a proof needs that invariant it
  appears as a `noDupKeys` hypothesis.
* The two outbound provider calls are oracles passed to the handler:
  `transcribe` maps the uploaded bytes to the transcription result, `chat` maps
  (system prompt, user message, max_tokens) to the completion's message
  content.  An `Except.error` models the call raising an exception whose
  `str(e)` is the carried string.  Fixed provider parameters (model names,
  temperature, top_p) do not influence the handler's control flow and are not
  part of the oracle.
* `processing_time` in the responses is wall-clock time and is left out of the
  model; all other response fields are kept.
* The temp-file lifecycle (`tempfile.NamedTemporaryFile(delete=False)`,
  `os.unlink`) is tracked by the `tempCreated` / `tempDeleted` flags of the
  outcome, alongside flags recording whether the transcription and
  chat-completion services were invoked.
* `raise HTTPException(...)` and `return {...}` are the two constructors of
  `HandlerResult`; since the model is a total function, no exception escapes
  the handler.
-/

/-- The in-memory `usage_tracker` dict: key `deviceId + "_" + userEmail` to
request count, in insertion order. -/
abbrev Tracker := List (String × Nat)

/-- Python `d.get(key, default)` on the tracker. -/
def dictGet : Tracker → String → Nat → Nat
  | [], _, d => d
  | (k, v) :: t, key, d => if k = key then v else dictGet t key d

/-- Python `key in d` on the tracker. -/
def dictContains : Tracker → String → Bool
  | [], _ => false
  | (k, _) :: t, key => k = key || dictContains t key

/-- Python `d[key] = v` on the tracker: overwrite in place if present,
append in insertion order if absent. -/
def dictSet : Tracker → String → Nat → Tracker
  | [], key, v => [(key, v)]
  | (k, w) :: t, key, v => if k = key then (k, v) :: t else (k, w) :: dictSet t key v

/-- Python `del d[key]` on the tracker (the source only deletes keys it has
just checked for membership). -/
def dictDel : Tracker → String → Tracker
  | [], _ => []
  | (k, w) :: t, key => if k = key then t else (k, w) :: dictDel t key

/-- The representation invariant of a Python dict rendered as an association
list: no key occurs twice. -/
def noDupKeys : Tracker → Bool
  | [] => true
  | (k, _) :: t => !dictContains t k && noDupKeys t

/-- Python `s.strip()`: drop whitespace characters from both ends of the
string. -/
def pyStrip (s : String) : String :=
  String.mk
    (List.reverse (List.dropWhile Char.isWhitespace
      (List.reverse (List.dropWhile Char.isWhitespace s.data))))

/-- Python `f"{x}"` for an optional string: `dict.get` of a missing key gives
`None`, which formats as `"None"`. -/
def pyStr : Option String → String
  | none => "None"
  | some s => s

/-- Python `audio or file`: an `UploadFile` object is truthy, absence is
`None`. -/
def pyOr (a b : Option (List Nat)) : Option (List Nat) :=
  match a with
  | some x => some x
  | none => b

/-- The `detail` payload of a raised `HTTPException`: either a plain string or
the `{"code": ..., "message": ...}` dict used by the quota error. -/
inductive ErrDetail where
  | text (s : String)
  | codeMsg (code : String) (message : String)
deriving DecidableEq

/-- A raised `fastapi.HTTPException`. -/
structure HTTPError where
  status_code : Nat
  detail : ErrDetail
deriving DecidableEq

/-- The JSON body returned by `process_audio` (the wall-clock
`processing_time` field is not modelled). -/
structure SuccessBody where
  transcript : String
  answer : String
  questions_used : Nat
deriving DecidableEq

/-- A handler either raises an `HTTPException` or returns a JSON body. -/
inductive HandlerResult where
  | raised (e : HTTPError)
  | returned (b : SuccessBody)
deriving DecidableEq

/-- Outcome of one `process_audio` call: the HTTP result, the tracker after
the call, and the effect flags (provider calls made, temp file created and
removed). -/
structure ProcessOutcome where
  result : HandlerResult
  tracker : Tracker
  transcriptionCalled : Bool
  chatCalled : Bool
  tempCreated : Bool
  tempDeleted : Bool
deriving DecidableEq

/-- The `style` dispatch of `process_audio`: the system prompt built from the
f-string template and the `max_tokens` passed to the chat completion. -/
def promptFor (style context work_history : String) : String × Nat :=
  if style = "shorthand" then
    ("You are an elite interview coach. The candidate is interviewing for " ++ context
      ++ ".\nTheir background: " ++ work_history
      ++ "\nProvide ONE hint or framework name only. Max 10 words.", 50)
  else if style = "bullet" then
    ("You are an elite interview coach. The candidate is interviewing for " ++ context
      ++ ".\nTheir background: " ++ work_history
      ++ "\nProvide 3 tactical bullet points. Max 100 words total.", 200)
  else
    ("You are an elite interview coach. The candidate is interviewing for " ++ context
      ++ ".\nTheir background: " ++ work_history
      ++ "\nProvide a 2-3 sentence tactical answer. Be concise and confident.", 150)

/-- `POST /process_audio` (`main.py` lines 57-194).  `clientAvailable` is
`client is not None`; `audio` and `file` carry the uploaded bytes when the
form field is present; `transcribe` and `chat` are the provider oracles;
`usage_tracker` is the dict state on entry. -/
def process_audio
    (clientAvailable : Bool)
    (audio file : Option (List Nat))
    (deviceId userEmail context work_history style : String)
    (transcribe : List Nat → Except String String)
    (chat : String → String → Nat → Except String String)
    (usage_tracker : Tracker) : ProcessOutcome :=
  if clientAvailable = false then
    { result := .raised ⟨503, .text "AI service unavailable - check server configuration"⟩
      tracker := usage_tracker
      transcriptionCalled := false, chatCalled := false
      tempCreated := false, tempDeleted := false }
  else
    match pyOr audio file with
    | none =>
      { result := .raised ⟨400, .text "No audio file provided"⟩
        tracker := usage_tracker
        transcriptionCalled := false, chatCalled := false
        tempCreated := false, tempDeleted := false }
    | some content =>
      let user_key := deviceId ++ "_" ++ userEmail
      let current_used := dictGet usage_tracker user_key 0
      let limit := if userEmail ≠ "anonymous" then 10 else 5
      if current_used ≥ limit then
        { result := .raised ⟨403, .codeMsg "TRIAL_LIMIT_REACHED"
            ("Trial limit reached (" ++ toString limit ++ " questions)")⟩
          tracker := usage_tracker
          transcriptionCalled := false, chatCalled := false
          tempCreated := false, tempDeleted := false }
      else
        if content.length < 1000 then
          { result := .returned ⟨"", "Listening...", current_used⟩
            tracker := usage_tracker
            transcriptionCalled := false, chatCalled := false
            tempCreated := false, tempDeleted := false }
        else
          match transcribe content with
          | .error e =>
            { result := .raised ⟨500, .text ("Processing error: " ++ e)⟩
              tracker := usage_tracker
              transcriptionCalled := true, chatCalled := false
              tempCreated := true, tempDeleted := true }
          | .ok transcription =>
            let transcript := if transcription ≠ "" then pyStrip transcription else ""
            if transcript = "" ∨ transcript.length < 2 then
              { result := .returned ⟨"", "Listening...", current_used⟩
                tracker := usage_tracker
                transcriptionCalled := true, chatCalled := false
                tempCreated := true, tempDeleted := true }
            else
              let sp := promptFor style context work_history
              match chat sp.1 ("Interview question: " ++ transcript) sp.2 with
              | .error e =>
                { result := .raised ⟨500, .text ("Processing error: " ++ e)⟩
                  tracker := usage_tracker
                  transcriptionCalled := true, chatCalled := true
                  tempCreated := true, tempDeleted := true }
              | .ok msgContent =>
                let answer := pyStrip msgContent
                let tracker2 := dictSet usage_tracker user_key (current_used + 1)
                { result := .returned ⟨transcript, answer, dictGet tracker2 user_key 0⟩
                  tracker := tracker2
                  transcriptionCalled := true, chatCalled := true
                  tempCreated := true, tempDeleted := true }

/-- The JSON body returned by `save_email`. -/
structure SaveEmailResponse where
  status : String
  message : String
deriving DecidableEq

/-- `POST /save_email` (`main.py` lines 196-208).  The body dict's
`deviceId` and `email` entries may be absent (`data.get` gives `None`). -/
def save_email (deviceId email : Option String) (usage_tracker : Tracker) :
    SaveEmailResponse × Tracker :=
  let old_key := pyStr deviceId ++ "_anonymous"
  let new_key := pyStr deviceId ++ "_" ++ pyStr email
  let tracker' :=
    if dictContains usage_tracker old_key then
      dictDel (dictSet usage_tracker new_key (dictGet usage_tracker old_key 0)) old_key
    else usage_tracker
  (⟨"success", "Trial extended to 10 questions"⟩, tracker')

/-! ### Dictionary lemmas

Facts about the Python-dict operations on the association-list tracker,
used by the endpoint theorems below. -/

theorem dictGet_dictSet_self (t : Tracker) (k : String) (v d : Nat) :
    dictGet (dictSet t k v) k d = v := by
  induction t with
  | nil => simp [dictSet, dictGet]
  | cons p t ih =>
    obtain ⟨a, w⟩ := p
    by_cases h : a = k <;> simp [dictSet, dictGet, h, ih]

theorem dictGet_dictDel_of_ne (t : Tracker) (k key : String) (d : Nat)
    (h : key ≠ k) : dictGet (dictDel t k) key d = dictGet t key d := by
  induction t with
  | nil => simp [dictDel]
  | cons p t ih =>
    obtain ⟨a, w⟩ := p
    by_cases ha : a = k
    · subst ha
      simp [dictDel, dictGet, Ne.symm h]
    · by_cases hk : a = key <;> simp [dictDel, dictGet, ha, hk, h, ih]

theorem dictContains_dictSet (t : Tracker) (k key : String) (v : Nat) :
    dictContains (dictSet t k v) key = (dictContains t key || k = key) := by
  induction t with
  | nil => simp [dictSet, dictContains]
  | cons p t ih =>
    obtain ⟨a, w⟩ := p
    by_cases ha : a = k
    · subst ha
      simp [dictSet, dictContains]
      tauto
    · simp [dictSet, dictContains, ha, ih]
      by_cases hk : a = key <;> simp [hk, Bool.or_assoc]

theorem noDupKeys_dictSet (t : Tracker) (k : String) (v : Nat)
    (h : noDupKeys t = true) : noDupKeys (dictSet t k v) = true := by
  induction t with
  | nil => simp [dictSet, noDupKeys, dictContains]
  | cons p t ih =>
    obtain ⟨a, w⟩ := p
    simp [noDupKeys] at h
    by_cases ha : a = k
    · subst ha
      simp [dictSet, noDupKeys, h.1, h.2]
    · have hka : ¬k = a := fun h' => ha h'.symm
      simp [dictSet, ha, noDupKeys, dictContains_dictSet, h.1, ih h.2, hka]

theorem dictContains_dictDel_self (t : Tracker) (k : String)
    (h : noDupKeys t = true) : dictContains (dictDel t k) k = false := by
  induction t with
  | nil => simp [dictDel, dictContains]
  | cons p t ih =>
    obtain ⟨a, w⟩ := p
    simp [noDupKeys] at h
    by_cases ha : a = k
    · subst ha
      simp [dictDel, h.1]
    · simp [dictDel, dictContains, ha, ih h.2]

/-- Appending distinct suffixes after the shared `deviceId + "_"` prefix
yields distinct keys. -/
theorem key_eq_of_append (d e : String) (h : d ++ "_" ++ e = d ++ "_anonymous") :
    e = "anonymous" := by
  have h2 := congrArg String.data h
  simp only [String.data_append, List.append_assoc] at h2
  have h3 := List.append_cancel_left h2
  have h4 : ("_" : String).data ++ e.data = ("_anonymous" : String).data := h3
  have h5 : e.data = ("anonymous" : String).data := by
    have h6 : ('_' : Char) :: e.data = '_' :: ("anonymous" : String).data := h4
    exact List.cons_injective.eq_iff.mp h6
  exact String.ext h5

/-! ### Claims about `save_email` -/

/-- When the anonymous key is absent, `save_email` does not touch the
tracker. -/
theorem save_email_noop (d e : Option String) (t : Tracker)
    (h : dictContains t (pyStr d ++ "_anonymous") = false) :
    (save_email d e t).2 = t := by
  simp [save_email, h]

/-- C3, counterexample: with `email = "anonymous"` the anonymous key and the
email-qualified key coincide, and `save_email` then deletes the entry
outright instead of copying the counter value to the email-qualified key. -/
theorem save_email_anonymous_email_cex :
    dictContains [("d_anonymous", 2)] "d_anonymous" = true
    ∧ dictContains (save_email (some "d") (some "anonymous")
        [("d_anonymous", 2)]).2 "d_anonymous" = false := by
  decide

/-- C3 (amended: the supplied email is not `"anonymous"`): when the anonymous
key for `deviceId` exists, `save_email` copies its counter value to the
email-qualified key and deletes the anonymous key, and a second identical
call leaves the tracker unchanged. -/
theorem save_email_migrates (d e : String) (tracker : Tracker)
    (he : e ≠ "anonymous")
    (hnd : noDupKeys tracker = true)
    (hmem : dictContains tracker (d ++ "_anonymous") = true) :
    dictGet (save_email (some d) (some e) tracker).2 (d ++ "_" ++ e) 0
        = dictGet tracker (d ++ "_anonymous") 0
    ∧ dictContains (save_email (some d) (some e) tracker).2
        (d ++ "_anonymous") = false
    ∧ (save_email (some d) (some e)
        (save_email (some d) (some e) tracker).2).2
        = (save_email (some d) (some e) tracker).2 := by
  have hne : d ++ "_" ++ e ≠ d ++ "_anonymous" :=
    fun h => he (key_eq_of_append d e h)
  have htr : (save_email (some d) (some e) tracker).2
      = dictDel (dictSet tracker (d ++ "_" ++ e)
          (dictGet tracker (d ++ "_anonymous") 0)) (d ++ "_anonymous") := by
    simp [save_email, pyStr, hmem]
  have hgone : dictContains (save_email (some d) (some e) tracker).2
      (d ++ "_anonymous") = false := by
    rw [htr]
    exact dictContains_dictDel_self _ _
      (noDupKeys_dictSet _ _ _ hnd)
  refine ⟨?_, hgone, ?_⟩
  · rw [htr, dictGet_dictDel_of_ne _ _ _ _ hne, dictGet_dictSet_self]
  · exact save_email_noop _ _ _ (by simpa [pyStr] using hgone)

/-- C3 witness: a concrete migration from `w_anonymous` to `w_u@x`. -/
theorem save_email_migrates_witness :
    (("u@x" : String) ≠ "anonymous"
      ∧ noDupKeys [("w_anonymous", 4)] = true
      ∧ dictContains [("w_anonymous", 4)] ("w" ++ "_anonymous") = true)
    ∧ (dictGet (save_email (some "w") (some "u@x") [("w_anonymous", 4)]).2
          ("w" ++ "_" ++ "u@x") 0
        = dictGet [("w_anonymous", 4)] ("w" ++ "_anonymous") 0
      ∧ dictContains (save_email (some "w") (some "u@x")
          [("w_anonymous", 4)]).2 ("w" ++ "_anonymous") = false
      ∧ (save_email (some "w") (some "u@x")
          (save_email (some "w") (some "u@x") [("w_anonymous", 4)]).2).2
          = (save_email (some "w") (some "u@x") [("w_anonymous", 4)]).2) :=
  ⟨⟨by decide, by decide, by decide⟩,
    save_email_migrates "w" "u@x" [("w_anonymous", 4)]
      (by decide) (by decide) (by decide)⟩

/-- C10, counterexample: with `email = "anonymous"` the email-qualified key
held a count (3), yet after `save_email` the migration does not leave that
count overwritten with the anonymous key's value — the entry is gone. -/
theorem save_email_overwrite_cex :
    dictContains [("d2_anonymous", 3)] "d2_anonymous" = true
    ∧ ¬ dictGet (save_email (some "d2") (some "anonymous")
        [("d2_anonymous", 3)]).2 "d2_anonymous" 0 = 3 := by
  decide

/-- C10 (amended: for the overwrite part, the supplied email is not
`"anonymous"`): `save_email` returns `{"status": "success"}` on every input,
and when a migration runs while the email-qualified key already holds a
count, that count is overwritten with the anonymous key's value. -/
theorem save_email_status_and_overwrite (d e : String) (tracker : Tracker)
    (he : e ≠ "anonymous")
    (hold : dictContains tracker (d ++ "_anonymous") = true)
    (_hnew : dictContains tracker (d ++ "_" ++ e) = true) :
    (∀ od oe (t : Tracker),
      (save_email od oe t).1 = ⟨"success", "Trial extended to 10 questions"⟩)
    ∧ dictGet (save_email (some d) (some e) tracker).2 (d ++ "_" ++ e) 0
        = dictGet tracker (d ++ "_anonymous") 0 := by
  have hne : d ++ "_" ++ e ≠ d ++ "_anonymous" :=
    fun h => he (key_eq_of_append d e h)
  refine ⟨fun od oe t => rfl, ?_⟩
  simp only [save_email, pyStr, hold, if_pos]
  rw [dictGet_dictDel_of_ne _ _ _ _ hne, dictGet_dictSet_self]

/-- C10 witness: a concrete call where the email-qualified key already holds
a count and gets overwritten by the migrated value. -/
theorem save_email_status_and_overwrite_witness :
    (("e@f" : String) ≠ "anonymous"
      ∧ dictContains [("p_anonymous", 7), ("p_e@f", 1)] ("p" ++ "_anonymous") = true
      ∧ dictContains [("p_anonymous", 7), ("p_e@f", 1)] ("p" ++ "_" ++ "e@f") = true)
    ∧ ((∀ od oe (t : Tracker),
        (save_email od oe t).1 = ⟨"success", "Trial extended to 10 questions"⟩)
      ∧ dictGet (save_email (some "p") (some "e@f")
          [("p_anonymous", 7), ("p_e@f", 1)]).2 ("p" ++ "_" ++ "e@f") 0
        = dictGet [("p_anonymous", 7), ("p_e@f", 1)] ("p" ++ "_anonymous") 0) :=
  ⟨⟨by decide, by decide, by decide⟩,
    save_email_status_and_overwrite "p" "e@f" [("p_anonymous", 7), ("p_e@f", 1)]
      (by decide) (by decide) (by decide)⟩

/-! ### Claims about `process_audio` -/

/-- C6: a `process_audio` request carrying neither the `audio` nor the `file`
form field yields the 400 "No audio file provided" error (with the Groq
client configured, since the handler's availability check runs first). -/
theorem process_audio_no_file_400
    (deviceId userEmail context work_history style : String)
    (transcribe : List Nat → Except String String)
    (chat : String → String → Nat → Except String String)
    (tracker : Tracker) :
    (process_audio true none none deviceId userEmail context work_history style
        transcribe chat tracker).result
      = .raised ⟨400, .text "No audio file provided"⟩ := by
  simp [process_audio, pyOr]

/-- C4: an audio payload smaller than 1000 bytes short-circuits to the
`"Listening..."` placeholder: the tracker is unchanged, the transcription
service is not invoked, and no temp file is created. -/
theorem process_audio_small_audio
    (audio file : Option (List Nat))
    (deviceId userEmail context work_history style : String)
    (transcribe : List Nat → Except String String)
    (chat : String → String → Nat → Except String String)
    (tracker : Tracker) (content : List Nat)
    (hfile : pyOr audio file = some content)
    (hquota : dictGet tracker (deviceId ++ "_" ++ userEmail) 0
      < (if userEmail ≠ "anonymous" then 10 else 5))
    (hsmall : content.length < 1000) :
    process_audio true audio file deviceId userEmail context work_history style
        transcribe chat tracker
      = { result := .returned ⟨"", "Listening...",
            dictGet tracker (deviceId ++ "_" ++ userEmail) 0⟩
          tracker := tracker
          transcriptionCalled := false, chatCalled := false
          tempCreated := false, tempDeleted := false } := by
  have hq : ¬ ((if userEmail = "anonymous" then 5 else 10 : Nat)
      ≤ dictGet tracker (deviceId ++ "_" ++ userEmail) 0) := by
    by_cases hev : userEmail = "anonymous" <;> simp [hev] at hquota ⊢ <;> omega
  simp [process_audio, hfile, hsmall, hq]

/-- C4 witness: an empty payload for a fresh anonymous device. -/
theorem process_audio_small_audio_witness :
    (pyOr (some []) none = some []
      ∧ dictGet [] ("d" ++ "_" ++ "anonymous") 0
          < (if ("anonymous" : String) ≠ "anonymous" then 10 else 5)
      ∧ ([] : List Nat).length < 1000)
    ∧ process_audio true (some []) none "d" "anonymous" "c" "w" "script"
        (fun _ => .ok "hi") (fun _ _ _ => .ok "a") []
      = { result := .returned ⟨"", "Listening...",
            dictGet [] ("d" ++ "_" ++ "anonymous") 0⟩
          tracker := []
          transcriptionCalled := false, chatCalled := false
          tempCreated := false, tempDeleted := false } :=
  ⟨⟨by decide, by decide, by decide⟩,
    process_audio_small_audio (some []) none "d" "anonymous" "c" "w" "script"
      (fun _ => .ok "hi") (fun _ _ _ => .ok "a") [] []
      (by decide) (by decide) (by decide)⟩

/-- On every branch of `process_audio` the temp-file flags agree: the file is
deleted exactly when it was created. -/
theorem process_audio_tempDeleted_eq_tempCreated
    (clientAvailable : Bool) (audio file : Option (List Nat))
    (deviceId userEmail context work_history style : String)
    (transcribe : List Nat → Except String String)
    (chat : String → String → Nat → Except String String)
    (tracker : Tracker) :
    (process_audio clientAvailable audio file deviceId userEmail context
        work_history style transcribe chat tracker).tempDeleted
      = (process_audio clientAvailable audio file deviceId userEmail context
        work_history style transcribe chat tracker).tempCreated := by
  unfold process_audio
  simp only [ge_iff_le]
  (repeat' split) <;> rfl

/-- On every branch of `process_audio` the tracker is either untouched or the
handler returned a success body. -/
theorem process_audio_tracker_or_returned
    (clientAvailable : Bool) (audio file : Option (List Nat))
    (deviceId userEmail context work_history style : String)
    (transcribe : List Nat → Except String String)
    (chat : String → String → Nat → Except String String)
    (tracker : Tracker) :
    (process_audio clientAvailable audio file deviceId userEmail context
        work_history style transcribe chat tracker).tracker = tracker
    ∨ (∃ b, (process_audio clientAvailable audio file deviceId userEmail
        context work_history style transcribe chat tracker).result
          = .returned b) := by
  unfold process_audio
  simp only [ge_iff_le]
  (repeat' split) <;> simp

/-- C5: on every path of `process_audio` — success, short-transcript return,
and both provider-exception paths — a temp file created to stage the audio is
removed before the handler returns or raises. -/
theorem process_audio_temp_file_removed
    (clientAvailable : Bool) (audio file : Option (List Nat))
    (deviceId userEmail context work_history style : String)
    (transcribe : List Nat → Except String String)
    (chat : String → String → Nat → Except String String)
    (tracker : Tracker)
    (h : (process_audio clientAvailable audio file deviceId userEmail context
        work_history style transcribe chat tracker).tempCreated = true) :
    (process_audio clientAvailable audio file deviceId userEmail context
        work_history style transcribe chat tracker).tempDeleted = true := by
  exact (process_audio_tempDeleted_eq_tempCreated clientAvailable audio file
    deviceId userEmail context work_history style transcribe chat
    tracker).trans h

/-- C5 witness: a failing transcription call on a 1000-byte payload creates
the temp file and still removes it. -/
theorem process_audio_temp_file_removed_witness :
    (process_audio true (some (List.replicate 1000 0)) none "d" "anonymous"
        "c" "w" "script" (fun _ => .error "boom") (fun _ _ _ => .ok "a")
        []).tempCreated = true
    ∧ (process_audio true (some (List.replicate 1000 0)) none "d" "anonymous"
        "c" "w" "script" (fun _ => .error "boom") (fun _ _ _ => .ok "a")
        []).tempDeleted = true :=
  ⟨by decide,
    process_audio_temp_file_removed true (some (List.replicate 1000 0)) none
      "d" "anonymous" "c" "w" "script" (fun _ => .error "boom")
      (fun _ _ _ => .ok "a") [] (by decide)⟩

/-- C8: a transcription whose trimmed text is empty or shorter than 2
characters yields the `"Listening..."` placeholder with an empty transcript,
leaves the tracker unchanged and never reaches the chat completion. -/
theorem process_audio_short_transcript
    (audio file : Option (List Nat))
    (deviceId userEmail context work_history style : String)
    (transcribe : List Nat → Except String String)
    (chat : String → String → Nat → Except String String)
    (tracker : Tracker) (content : List Nat) (t : String)
    (hfile : pyOr audio file = some content)
    (hquota : dictGet tracker (deviceId ++ "_" ++ userEmail) 0
      < (if userEmail ≠ "anonymous" then 10 else 5))
    (hbig : ¬ content.length < 1000)
    (htr : transcribe content = .ok t)
    (hshort : (pyStrip t).length < 2) :
    process_audio true audio file deviceId userEmail context work_history style
        transcribe chat tracker
      = { result := .returned ⟨"", "Listening...",
            dictGet tracker (deviceId ++ "_" ++ userEmail) 0⟩
          tracker := tracker
          transcriptionCalled := true, chatCalled := false
          tempCreated := true, tempDeleted := true } := by
  have hq : ¬ ((if userEmail = "anonymous" then 5 else 10 : Nat)
      ≤ dictGet tracker (deviceId ++ "_" ++ userEmail) 0) := by
    by_cases hev : userEmail = "anonymous" <;> simp [hev] at hquota ⊢ <;> omega
  by_cases ht : t = "" <;> simp [process_audio, hfile, hbig, hq, htr, ht, hshort]

/-- C8 witness: a transcription that trims to the single character `"a"`. -/
theorem process_audio_short_transcript_witness :
    (pyOr (some (List.replicate 1000 0)) none = some (List.replicate 1000 0)
      ∧ dictGet [] ("d" ++ "_" ++ "anonymous") 0
          < (if ("anonymous" : String) ≠ "anonymous" then 10 else 5)
      ∧ ¬ (List.replicate 1000 (0 : Nat)).length < 1000
      ∧ (fun (_ : List Nat) => (Except.ok " a " : Except String String))
          (List.replicate 1000 0) = .ok " a "
      ∧ (pyStrip " a ").length < 2)
    ∧ process_audio true (some (List.replicate 1000 0)) none "d" "anonymous"
        "c" "w" "script" (fun _ => .ok " a ") (fun _ _ _ => .ok "ans") []
      = { result := .returned ⟨"", "Listening...",
            dictGet [] ("d" ++ "_" ++ "anonymous") 0⟩
          tracker := []
          transcriptionCalled := true, chatCalled := false
          tempCreated := true, tempDeleted := true } :=
  ⟨⟨by decide, by decide, by decide, rfl, by decide⟩,
    process_audio_short_transcript (some (List.replicate 1000 0)) none
      "d" "anonymous" "c" "w" "script" (fun _ => .ok " a ")
      (fun _ _ _ => .ok "ans") [] (List.replicate 1000 0) " a "
      (by decide) (by decide) (by decide) rfl (by decide)⟩

/-- C9: whenever `process_audio` raises (any `HTTPException`, in particular
the 500 processing errors), the usage tracker is unchanged: the counter is
written only on the successful-completion path. -/
theorem process_audio_error_keeps_tracker
    (clientAvailable : Bool) (audio file : Option (List Nat))
    (deviceId userEmail context work_history style : String)
    (transcribe : List Nat → Except String String)
    (chat : String → String → Nat → Except String String)
    (tracker : Tracker) (err : HTTPError)
    (h : (process_audio clientAvailable audio file deviceId userEmail context
        work_history style transcribe chat tracker).result = .raised err) :
    (process_audio clientAvailable audio file deviceId userEmail context
        work_history style transcribe chat tracker).tracker = tracker := by
  rcases process_audio_tracker_or_returned clientAvailable audio file deviceId
    userEmail context work_history style transcribe chat tracker with
    htr | ⟨b, hb⟩
  · exact htr
  · rw [h] at hb
    cases hb

/-- C9 witness: a failing transcription raises the 500 processing error and
leaves the (empty) tracker empty. -/
theorem process_audio_error_keeps_tracker_witness :
    (process_audio true (some (List.replicate 1000 0)) none "d" "anonymous"
        "c" "w" "script" (fun _ => .error "boom") (fun _ _ _ => .ok "a")
        []).result = .raised ⟨500, .text ("Processing error: " ++ "boom")⟩
    ∧ (process_audio true (some (List.replicate 1000 0)) none "d" "anonymous"
        "c" "w" "script" (fun _ => .error "boom") (fun _ _ _ => .ok "a")
        []).tracker = [] :=
  ⟨by decide,
    process_audio_error_keeps_tracker true (some (List.replicate 1000 0)) none
      "d" "anonymous" "c" "w" "script" (fun _ => .error "boom")
      (fun _ _ _ => .ok "a") [] ⟨500, .text ("Processing error: " ++ "boom")⟩
      (by decide)⟩

/-- Every `HTTPException` raised by `process_audio` has status 503, 400 or
500 — except the quota error, whose status is 403 and which occurs only when
the counter for the key has reached the limit. -/
theorem process_audio_raised_status
    (clientAvailable : Bool) (audio file : Option (List Nat))
    (deviceId userEmail context work_history style : String)
    (transcribe : List Nat → Except String String)
    (chat : String → String → Nat → Except String String)
    (tracker : Tracker) (err : HTTPError)
    (h : (process_audio clientAvailable audio file deviceId userEmail context
        work_history style transcribe chat tracker).result = .raised err) :
    err.status_code = 503 ∨ err.status_code = 400 ∨ err.status_code = 500
    ∨ (err.status_code = 403
        ∧ dictGet tracker (deviceId ++ "_" ++ userEmail) 0
            ≥ (if userEmail ≠ "anonymous" then 10 else 5)) := by
  revert h
  unfold process_audio
  simp only [ge_iff_le]
  (repeat' split) <;> intro h <;> cases h <;> simp_all

/-- C1: with the client configured and an audio file present, a request whose
usage counter has reached the limit (10 for a named email, 5 for
`"anonymous"`) raises the 403 `TRIAL_LIMIT_REACHED` error and invokes neither
the transcription nor the chat-completion service; a request whose counter is
below the limit is never rejected with a 403. -/
theorem process_audio_quota
    (audio file : Option (List Nat))
    (deviceId userEmail context work_history style : String)
    (transcribe : List Nat → Except String String)
    (chat : String → String → Nat → Except String String)
    (tracker : Tracker) (content : List Nat)
    (hfile : pyOr audio file = some content) :
    (dictGet tracker (deviceId ++ "_" ++ userEmail) 0
        ≥ (if userEmail ≠ "anonymous" then 10 else 5) →
      (process_audio true audio file deviceId userEmail context work_history
          style transcribe chat tracker).result
        = .raised ⟨403, .codeMsg "TRIAL_LIMIT_REACHED"
            ("Trial limit reached ("
              ++ toString (if userEmail ≠ "anonymous" then (10 : Nat) else 5)
              ++ " questions)")⟩
      ∧ (process_audio true audio file deviceId userEmail context work_history
          style transcribe chat tracker).transcriptionCalled = false
      ∧ (process_audio true audio file deviceId userEmail context work_history
          style transcribe chat tracker).chatCalled = false)
    ∧ (dictGet tracker (deviceId ++ "_" ++ userEmail) 0
        < (if userEmail ≠ "anonymous" then 10 else 5) →
      ∀ err, (process_audio true audio file deviceId userEmail context
          work_history style transcribe chat tracker).result = .raised err →
        err.status_code ≠ 403) := by
  constructor
  · intro hge
    have hge' : (if userEmail = "anonymous" then 5 else 10 : Nat)
        ≤ dictGet tracker (deviceId ++ "_" ++ userEmail) 0 := by
      by_cases hev : userEmail = "anonymous" <;> simp [hev] at hge ⊢ <;> omega
    refine ⟨?_, ?_, ?_⟩ <;> simp [process_audio, hfile, hge']
  · intro hlt err heq
    rcases process_audio_raised_status true audio file deviceId userEmail
      context work_history style transcribe chat tracker err heq with
      h5 | h4 | h5' | ⟨h403, hq⟩
    · omega
    · omega
    · omega
    · exact absurd (Nat.lt_of_lt_of_le hlt hq) (Nat.lt_irrefl _)

/-- C1 witness: an anonymous device at its 5-question limit is rejected with
the 403 quota error and no provider call. -/
theorem process_audio_quota_witness :
    pyOr (some []) none = some []
    ∧ ((dictGet [("d_anonymous", 5)] ("d" ++ "_" ++ "anonymous") 0
          ≥ (if ("anonymous" : String) ≠ "anonymous" then 10 else 5) →
        (process_audio true (some []) none "d" "anonymous" "c" "w" "script"
            (fun _ => .ok "hi") (fun _ _ _ => .ok "a")
            [("d_anonymous", 5)]).result
          = .raised ⟨403, .codeMsg "TRIAL_LIMIT_REACHED"
              ("Trial limit reached ("
                ++ toString (if ("anonymous" : String) ≠ "anonymous"
                    then (10 : Nat) else 5)
                ++ " questions)")⟩
        ∧ (process_audio true (some []) none "d" "anonymous" "c" "w" "script"
            (fun _ => .ok "hi") (fun _ _ _ => .ok "a")
            [("d_anonymous", 5)]).transcriptionCalled = false
        ∧ (process_audio true (some []) none "d" "anonymous" "c" "w" "script"
            (fun _ => .ok "hi") (fun _ _ _ => .ok "a")
            [("d_anonymous", 5)]).chatCalled = false)
      ∧ (dictGet [("d_anonymous", 5)] ("d" ++ "_" ++ "anonymous") 0
          < (if ("anonymous" : String) ≠ "anonymous" then 10 else 5) →
        ∀ err, (process_audio true (some []) none "d" "anonymous" "c" "w"
            "script" (fun _ => .ok "hi") (fun _ _ _ => .ok "a")
            [("d_anonymous", 5)]).result = .raised err →
          err.status_code ≠ 403)) :=
  ⟨by decide,
    process_audio_quota (some []) none "d" "anonymous" "c" "w" "script"
      (fun _ => .ok "hi") (fun _ _ _ => .ok "a") [("d_anonymous", 5)] []
      (by decide)⟩

/-- C2: on the success path, the `answer` field of the returned body is the
chat completion's message content stripped of surrounding whitespace. -/
theorem process_audio_answer_trimmed
    (audio file : Option (List Nat))
    (deviceId userEmail context work_history style : String)
    (transcribe : List Nat → Except String String)
    (chat : String → String → Nat → Except String String)
    (tracker : Tracker) (content : List Nat) (t c : String)
    (hfile : pyOr audio file = some content)
    (hquota : dictGet tracker (deviceId ++ "_" ++ userEmail) 0
      < (if userEmail ≠ "anonymous" then 10 else 5))
    (hbig : ¬ content.length < 1000)
    (htr : transcribe content = .ok t)
    (hlong : ¬ (pyStrip t).length < 2)
    (hchat : chat (promptFor style context work_history).1
        ("Interview question: " ++ pyStrip t)
        (promptFor style context work_history).2 = .ok c) :
    ∃ b, (process_audio true audio file deviceId userEmail context
        work_history style transcribe chat tracker).result = .returned b
      ∧ b.answer = pyStrip c := by
  have hq : ¬ ((if userEmail = "anonymous" then 5 else 10 : Nat)
      ≤ dictGet tracker (deviceId ++ "_" ++ userEmail) 0) := by
    by_cases hev : userEmail = "anonymous" <;> simp [hev] at hquota ⊢ <;> omega
  have ht : ¬ t = "" := by
    intro h
    subst h
    exact hlong (by decide)
  have hne : ¬ pyStrip t = "" := by
    intro h
    exact hlong (by simp [h])
  simp [process_audio, hfile, hq, hbig, htr, ht, hne, hlong, hchat]

/-- C2 witness: a concrete success run whose answer is the trimmed message
content. -/
theorem process_audio_answer_trimmed_witness :
    (pyOr (some (List.replicate 1000 0)) none = some (List.replicate 1000 0)
      ∧ dictGet [] ("d" ++ "_" ++ "anonymous") 0
          < (if ("anonymous" : String) ≠ "anonymous" then 10 else 5)
      ∧ ¬ (List.replicate 1000 (0 : Nat)).length < 1000
      ∧ ¬ (pyStrip " hello there ").length < 2)
    ∧ ∃ b, (process_audio true (some (List.replicate 1000 0)) none "d"
        "anonymous" "c" "w" "script" (fun _ => .ok " hello there ")
        (fun _ _ _ => .ok " an answer ") []).result = .returned b
      ∧ b.answer = pyStrip " an answer " :=
  ⟨⟨by decide, by decide, by decide, by decide⟩,
    process_audio_answer_trimmed (some (List.replicate 1000 0)) none "d"
      "anonymous" "c" "w" "script" (fun _ => .ok " hello there ")
      (fun _ _ _ => .ok " an answer ") [] (List.replicate 1000 0)
      " hello there " " an answer "
      (by decide) (by decide) (by decide) rfl (by decide) rfl⟩

/-- C7: once past the quota and size checks, a transcription exception or a
chat-completion exception is caught and surfaced as a 500 response whose
detail echoes the exception message; the total model never propagates an
exception out of the handler. -/
theorem process_audio_exceptions_500
    (audio file : Option (List Nat))
    (deviceId userEmail context work_history style : String)
    (transcribe : List Nat → Except String String)
    (chat : String → String → Nat → Except String String)
    (tracker : Tracker) (content : List Nat)
    (hfile : pyOr audio file = some content)
    (hquota : dictGet tracker (deviceId ++ "_" ++ userEmail) 0
      < (if userEmail ≠ "anonymous" then 10 else 5))
    (hbig : ¬ content.length < 1000) :
    (∀ e, transcribe content = .error e →
      (process_audio true audio file deviceId userEmail context work_history
          style transcribe chat tracker).result
        = .raised ⟨500, .text ("Processing error: " ++ e)⟩)
    ∧ (∀ t e, transcribe content = .ok t → ¬ (pyStrip t).length < 2 →
        chat (promptFor style context work_history).1
          ("Interview question: " ++ pyStrip t)
          (promptFor style context work_history).2 = .error e →
      (process_audio true audio file deviceId userEmail context work_history
          style transcribe chat tracker).result
        = .raised ⟨500, .text ("Processing error: " ++ e)⟩) := by
  have hq : ¬ ((if userEmail = "anonymous" then 5 else 10 : Nat)
      ≤ dictGet tracker (deviceId ++ "_" ++ userEmail) 0) := by
    by_cases hev : userEmail = "anonymous" <;> simp [hev] at hquota ⊢ <;> omega
  constructor
  · intro e htr
    simp [process_audio, hfile, hq, hbig, htr]
  · intro t e htr hlong hchat
    have ht : ¬ t = "" := by
      intro h
      subst h
      exact hlong (by decide)
    have hne : ¬ pyStrip t = "" := by
      intro h
      exact hlong (by simp [h])
    simp [process_audio, hfile, hq, hbig, htr, ht, hne, hlong, hchat]

/-- C7 witness: a failing transcription is surfaced as the 500 "Processing
error" response. -/
theorem process_audio_exceptions_500_witness :
    (pyOr (some (List.replicate 1000 0)) none = some (List.replicate 1000 0)
      ∧ dictGet [] ("d" ++ "_" ++ "anonymous") 0
          < (if ("anonymous" : String) ≠ "anonymous" then 10 else 5)
      ∧ ¬ (List.replicate 1000 (0 : Nat)).length < 1000)
    ∧ ((∀ e, (fun (_ : List Nat) =>
          (Except.error "boom" : Except String String))
            (List.replicate 1000 0) = .error e →
        (process_audio true (some (List.replicate 1000 0)) none "d"
            "anonymous" "c" "w" "script" (fun _ => .error "boom")
            (fun _ _ _ => .ok "a") []).result
          = .raised ⟨500, .text ("Processing error: " ++ e)⟩)
      ∧ (∀ t e, (fun (_ : List Nat) =>
            (Except.error "boom" : Except String String))
              (List.replicate 1000 0) = .ok t →
          ¬ (pyStrip t).length < 2 →
          (fun (_ _ : String) (_ : Nat) =>
            (Except.ok "a" : Except String String))
              (promptFor "script" "c" "w").1
              ("Interview question: " ++ pyStrip t)
              (promptFor "script" "c" "w").2 = .error e →
        (process_audio true (some (List.replicate 1000 0)) none "d"
            "anonymous" "c" "w" "script" (fun _ => .error "boom")
            (fun _ _ _ => .ok "a") []).result
          = .raised ⟨500, .text ("Processing error: " ++ e)⟩)) :=
  ⟨⟨by decide, by decide, by decide⟩,
    process_audio_exceptions_500 (some (List.replicate 1000 0)) none "d"
      "anonymous" "c" "w" "script" (fun _ => .error "boom")
      (fun _ _ _ => .ok "a") [] (List.replicate 1000 0)
      (by decide) (by decide) (by decide)⟩
